import Mathlib

/-!
Verification of the configuration files of the `shailesh1729.github.io`
repository against its natural-language specification.

The repository consists of two Pelican configuration modules:
`pelicanconf.py` (the minimal, current variant) and `old/pelicanconf.py`
(the fuller, older variant).  Each module is a sequence of top-level
assignments of Python literals to setting names.  We embed Python literal
values as the inductive type `PyVal`, each module as the ordered list of
its assignments, and module loading as sequential execution of the
assignments into an environment mapping names to values.
-/

/-- A Python literal value as it occurs in the configuration sources:
strings, `None`, booleans, integers, tuples of `(string, string)` pairs,
lists of strings, dictionaries from strings to strings, dictionaries from
strings to numeric (float) values modelled as exact rationals, nested
dictionaries, and lists of string-keyed records. -/
inductive PyVal where
  | str : String → PyVal
  | none : PyVal
  | bool : Bool → PyVal
  | int : Int → PyVal
  | pairs : List (String × String) → PyVal
  | strs : List String → PyVal
  | strMap : List (String × String) → PyVal
  | ratMap : List (String × Rat) → PyVal
  | dict : List (String × PyVal) → PyVal
  | records : List (List (String × String)) → PyVal

/-- A configuration source: the module's top-level assignments in
declaration order. -/
abbrev ConfSrc : Type := List (String × PyVal)

/-- The minimal configuration variant, `src/pelicanconf.py`,
assignment by assignment in source order. -/
def pelicanconf : ConfSrc := [
  ("AUTHOR", PyVal.str "Shailesh Kumar"),
  ("SITENAME", PyVal.str "In Digits"),
  ("SITEURL", PyVal.str ""),
  ("PATH", PyVal.str "content"),
  ("TIMEZONE", PyVal.str "Asia/Kolkata"),
  ("DEFAULT_LANG", PyVal.str "English"),
  ("FEED_ALL_ATOM", PyVal.none),
  ("CATEGORY_FEED_ATOM", PyVal.none),
  ("TRANSLATION_FEED_ATOM", PyVal.none),
  ("AUTHOR_FEED_ATOM", PyVal.none),
  ("AUTHOR_FEED_RSS", PyVal.none),
  ("LINKS", PyVal.pairs [
    ("Optimization Book", "https://convex.indigits.com"),
    ("CR-Sparse", "https://github.com/carnotresearch/cr-sparse"),
    ("Interra", "https://interrasystems.com"),
    ("JAX", "https://github.com/google/jax")]),
  ("SOCIAL", PyVal.pairs [
    ("twitter", "http://twitter.com/shailesh1729"),
    ("github", "http://github.com/shailesh1729"),
    ("linkedin", "https://www.linkedin.com/in/shaileshkumar1729"),
    ("facebook", "https://www.facebook.com/shailesh.kumar.9484"),
    ("medium", "https://shaileshk.medium.com")]),
  ("DEFAULT_PAGINATION", PyVal.bool false)]

/-- The fuller configuration variant, `src/old/pelicanconf.py`,
assignment by assignment in source order. -/
def old_pelicanconf : ConfSrc := [
  ("AUTHOR", PyVal.str "Shailesh Kumar"),
  ("SITENAME", PyVal.str "In Digits"),
  ("SITEURL", PyVal.str ""),
  ("PATH", PyVal.str "content"),
  ("THEME", PyVal.str "elegant"),
  ("TIMEZONE", PyVal.str "Asia/Kolkata"),
  ("DATE_FORMATS", PyVal.strMap [("en", "%b %d, %Y")]),
  ("DEFAULT_LANG", PyVal.str "en"),
  ("FEED_ALL_ATOM", PyVal.none),
  ("CATEGORY_FEED_ATOM", PyVal.none),
  ("TRANSLATION_FEED_ATOM", PyVal.none),
  ("AUTHOR_FEED_ATOM", PyVal.none),
  ("AUTHOR_FEED_RSS", PyVal.none),
  ("LINKS", PyVal.pairs [
    ("Optimization Book", "https://convex.indigits.com"),
    ("CR-Sparse", "https://github.com/carnotresearch/cr-sparse"),
    ("Interra", "https://interrasystems.com"),
    ("JAX", "https://github.com/google/jax")]),
  ("SOCIAL", PyVal.pairs [
    ("twitter", "http://twitter.com/shailesh1729"),
    ("github", "http://github.com/shailesh1729"),
    ("linkedin", "https://www.linkedin.com/in/shaileshkumar1729"),
    ("facebook", "https://www.facebook.com/shailesh.kumar.9484"),
    ("youtube", "https://www.youtube.com/channel/UC_cwiJQwHSDlDl-IGnu-0fw"),
    ("medium", "https://shaileshk.medium.com")]),
  ("DEFAULT_PAGINATION", PyVal.bool false),
  ("DEFAULT_CATEGORY", PyVal.str "Miscellaneous"),
  ("USE_FOLDER_AS_CATEGORY", PyVal.bool false),
  ("ARTICLE_URL", PyVal.str "{slug}"),
  ("PAGE_URL", PyVal.str "{slug}"),
  ("PAGE_SAVE_AS", PyVal.str "{slug}.html"),
  ("TAGS_URL", PyVal.str "tags"),
  ("CATEGORIES_URL", PyVal.str "categories"),
  ("ARCHIVES_URL", PyVal.str "archives"),
  ("SEARCH_URL", PyVal.str "search"),
  ("SITEMAP", PyVal.dict [
    ("format", PyVal.str "xml"),
    ("priorities", PyVal.ratMap [
      ("articles", (0.5 : Rat)), ("indexes", (0.5 : Rat)), ("pages", (0.5 : Rat))]),
    ("changefreqs", PyVal.strMap [
      ("articles", "monthly"), ("indexes", "daily"), ("pages", "monthly")])]),
  ("DIRECT_TEMPLATES", PyVal.strs
    ["index", "tags", "categories", "archives", "search", "404"]),
  ("TAG_SAVE_AS", PyVal.str ""),
  ("AUTHOR_SAVE_AS", PyVal.str ""),
  ("CATEGORY_SAVE_AS", PyVal.str ""),
  ("USE_SHORTCUT_ICONS", PyVal.bool true),
  ("SOCIAL_PROFILE_LABEL", PyVal.str "Stay in Touch"),
  ("RELATED_POSTS_LABEL", PyVal.str "Keep Reading"),
  ("SHARE_POST_INTRO", PyVal.str "Like this post? Share on:"),
  ("COMMENTS_INTRO", PyVal.str
    "So what do you think? Did I miss something? Is any part unclear? Leave your comments below."),
  ("EMAIL_SUBSCRIPTION_LABEL", PyVal.str "Get New Release Alert"),
  ("EMAIL_FIELD_PLACEHOLDER", PyVal.str "Enter your email..."),
  ("SUBSCRIBE_BUTTON_TITLE", PyVal.str "Notify me"),
  ("DISQUS_FILTER", PyVal.bool true),
  ("UTTERANCES_FILTER", PyVal.bool true),
  ("COMMENTBOX_FILTER", PyVal.bool true),
  ("LANDING_PAGE_TITLE", PyVal.str "Musings of Shailesh Kumar"),
  ("PROJECTS_TITLE", PyVal.str "My Projects"),
  ("PROJECTS", PyVal.records [
    [("name", "CR-Sparse"),
     ("url", "https://github.com/carnotresearch/cr-sparse"),
     ("description", "Functional models and algorithms for sparse signal processing")],
    [("name", "Convex Optimization Book"),
     ("url", "https://github.com/shailesh1729/cvx-opt-book"),
     ("description", "A book on mathematics related to convex optimization for signal processing")]])]

/-- An environment mapping setting names to values, as the external
engine sees the module after it has been executed. -/
def Env : Type := String → Option PyVal

/-- The empty environment, before any assignment has run. -/
def emptyEnv : Env := fun _ => Option.none

/-- Executing one assignment `k = v` updates the binding of `k`. -/
def assign (env : Env) (k : String) (v : PyVal) : Env :=
  fun q => if q = k then some v else env q

/-- Loading a configuration source: execute its assignments in order,
starting from `env`. -/
def load (env : Env) (src : ConfSrc) : Env :=
  match src with
  | [] => env
  | (k, v) :: rest => load (assign env k v) rest

/-- The value a fresh load of `src` exposes for the setting `k`. -/
def lookupConf (src : ConfSrc) (k : String) : Option PyVal :=
  load emptyEnv src k

/-- The last value assigned to `k` in `src`, if any. -/
def lookupLast (src : ConfSrc) (k : String) : Option PyVal :=
  match src with
  | [] => Option.none
  | (a, v) :: rest =>
    match lookupLast rest k with
    | Option.none => if k = a then some v else Option.none
    | some w => some w

theorem load_apply (src : ConfSrc) :
    ∀ (env : Env) (q : String),
      load env src q =
        match lookupLast src q with
        | some v => some v
        | Option.none => env q := by
  induction src with
  | nil => intro env q; rfl
  | cons hd tl ih =>
    intro env q
    obtain ⟨a, v⟩ := hd
    show load (assign env a v) tl q = _
    rw [ih]
    show _ = (match (match lookupLast tl q with
      | Option.none => if q = a then some v else Option.none
      | some w => some w) with
      | some w => some w
      | Option.none => env q)
    cases lookupLast tl q with
    | some w => rfl
    | none =>
      by_cases h : q = a
      · simp [assign, h]
      · simp [assign, h]

theorem lookupLast_eq_none (src : ConfSrc) (k : String)
    (h : k ∉ src.map Prod.fst) : lookupLast src k = Option.none := by
  induction src with
  | nil => rfl
  | cons hd tl ih =>
    obtain ⟨a, v⟩ := hd
    simp only [List.map_cons, List.mem_cons] at h
    push_neg at h
    show (match lookupLast tl k with
      | Option.none => if k = a then some v else Option.none
      | some w => some w) = Option.none
    rw [ih h.2]
    simp [h.1]

/-- The value is a string (documented type `string`). -/
def isStr : PyVal → Bool
  | PyVal.str _ => true
  | _ => false

/-- The value is an ordered sequence of `(string, string)` pairs
(documented type of LINKS and SOCIAL). -/
def isPairSeq : PyVal → Bool
  | PyVal.pairs _ => true
  | _ => false

/-- The value is a boolean or an integer (documented type of
DEFAULT_PAGINATION). -/
def isBoolOrInt : PyVal → Bool
  | PyVal.bool _ => true
  | PyVal.int _ => true
  | _ => false

/-- The value is an ordered sequence of strings (documented type of
DIRECT_TEMPLATES). -/
def isStrSeq : PyVal → Bool
  | PyVal.strs _ => true
  | _ => false

/-- The value is a nested mapping (documented type of SITEMAP). -/
def isMapping : PyVal → Bool
  | PyVal.dict _ => true
  | PyVal.strMap _ => true
  | PyVal.ratMap _ => true
  | _ => false

/-- A record with exactly the fields `name`, `url`, `description`, in that
order (one entry of the documented PROJECTS shape). -/
def isProjectRecord (r : List (String × String)) : Bool :=
  r.map Prod.fst == ["name", "url", "description"]

/-- The value is a sequence of `{name, url, description}` records
(documented type of PROJECTS). -/
def isProjectSeq : PyVal → Bool
  | PyVal.records l => l.all isProjectRecord
  | _ => false

/-- Modelled from the spec: a feed setting is "string or absent; absent
disables the feed", and both variants use the value `None` as the marker
for the absent/disabled state, so a well-formed feed setting is a string
or `None`. -/
def isFeedSetting : PyVal → Bool
  | PyVal.str _ => true
  | PyVal.none => true
  | _ => false

/-- The documented type of each key the claim about loaded value types
lists from section 6 of the spec. -/
def schemaC1 : List (String × (PyVal → Bool)) := [
  ("AUTHOR", isStr), ("SITENAME", isStr), ("SITEURL", isStr),
  ("PATH", isStr), ("TIMEZONE", isStr), ("DEFAULT_LANG", isStr),
  ("LINKS", isPairSeq), ("SOCIAL", isPairSeq),
  ("DEFAULT_PAGINATION", isBoolOrInt),
  ("DIRECT_TEMPLATES", isStrSeq), ("SITEMAP", isMapping),
  ("PROJECTS", isProjectSeq), ("PROJECTS_TITLE", isStr)]

/-- Checks every key of `schemaC1` that is present in `src`: a loaded
value must match its documented type; an absent key is not constrained. -/
def typeCheck (src : ConfSrc) : Bool :=
  schemaC1.all fun kp =>
    match lookupConf src kp.1 with
    | some v => kp.2 v
    | Option.none => true

/-- Modelled from the spec: the full schema of recognized options of
section 6, covering also THEME, the URL/file-naming templates and the
feed settings.  The repository contains no loader code; this schema is
what section 6 documents the external engine to expect. -/
def schema : List (String × (PyVal → Bool)) := [
  ("AUTHOR", isStr), ("SITENAME", isStr), ("SITEURL", isStr),
  ("PATH", isStr), ("TIMEZONE", isStr), ("DEFAULT_LANG", isStr),
  ("THEME", isStr),
  ("FEED_ALL_ATOM", isFeedSetting), ("CATEGORY_FEED_ATOM", isFeedSetting),
  ("TRANSLATION_FEED_ATOM", isFeedSetting), ("AUTHOR_FEED_ATOM", isFeedSetting),
  ("AUTHOR_FEED_RSS", isFeedSetting),
  ("LINKS", isPairSeq), ("SOCIAL", isPairSeq),
  ("DEFAULT_PAGINATION", isBoolOrInt),
  ("ARTICLE_URL", isStr), ("PAGE_URL", isStr), ("PAGE_SAVE_AS", isStr),
  ("TAGS_URL", isStr), ("CATEGORIES_URL", isStr), ("ARCHIVES_URL", isStr),
  ("SEARCH_URL", isStr), ("TAG_SAVE_AS", isStr), ("AUTHOR_SAVE_AS", isStr),
  ("CATEGORY_SAVE_AS", isStr),
  ("DIRECT_TEMPLATES", isStrSeq), ("SITEMAP", isMapping),
  ("PROJECTS", isProjectSeq), ("PROJECTS_TITLE", isStr)]

/-- An assignment is malformed when its key is recognized and its value
fails the key's documented type. -/
def recognizedBad (kv : String × PyVal) : Bool :=
  match schema.lookup kv.1 with
  | some p => !(p kv.2)
  | Option.none => false

/-- Modelled from the spec: the validating loader of section 4.1.  The
repository itself contains no loader code (only the declarations it
loads), so this follows the spec's words: a malformed value for a
recognized key fails fast with an error identifying the offending key;
otherwise the declarations are read into an environment. -/
def loadChecked (src : ConfSrc) : Except String Env :=
  match src.find? recognizedBad with
  | some kv => Except.error kv.1
  | Option.none => Except.ok (load emptyEnv src)

/-- Modelled from the spec: the feed for the setting `k` is disabled when
the setting is absent (spec: "absent disables the feed") or is the `None`
marker both variants declare for the disabled state. -/
def feedDisabled (src : ConfSrc) (k : String) : Bool :=
  match lookupConf src k with
  | Option.none => true
  | some PyVal.none => true
  | some _ => false

/-- The five feed settings declared by both variants. -/
def feedKeys : List String :=
  ["FEED_ALL_ATOM", "CATEGORY_FEED_ATOM", "TRANSLATION_FEED_ATOM",
   "AUTHOR_FEED_ATOM", "AUTHOR_FEED_RSS"]

/-- The site title the loaded configuration exposes. -/
def sitename (src : ConfSrc) : Option String :=
  match lookupConf src "SITENAME" with
  | some (PyVal.str s) => some s
  | _ => Option.none

/-- Modelled from the spec: pagination is enabled according to
DEFAULT_PAGINATION ("boolean or integer"; the documented default for a
missing optional key is pagination disabled). -/
def paginationEnabled (src : ConfSrc) : Bool :=
  match lookupConf src "DEFAULT_PAGINATION" with
  | some (PyVal.bool b) => b
  | some (PyVal.int _) => true
  | _ => false

/-- Modelled from the spec: SITEURL is "the base URL for generated
links", so a generated link is the base URL followed by the
site-relative path. -/
def generatedLink (src : ConfSrc) (path : String) : String :=
  (match lookupConf src "SITEURL" with
   | some (PyVal.str base) => base
   | _ => "") ++ path

/-- The embedded configuration variants of the repository: the minimal
`pelicanconf.py` and the fuller `old/pelicanconf.py`. -/
def variants : List ConfSrc := [pelicanconf, old_pelicanconf]

/-- The keys tied to the theme: the identifier, the theme label strings,
and the portfolio section. -/
def themeAndProjectKeys : List String :=
  ["THEME", "SOCIAL_PROFILE_LABEL", "RELATED_POSTS_LABEL",
   "SHARE_POST_INTRO", "COMMENTS_INTRO", "EMAIL_SUBSCRIPTION_LABEL",
   "EMAIL_FIELD_PLACEHOLDER", "SUBSCRIBE_BUTTON_TITLE",
   "LANDING_PAGE_TITLE", "PROJECTS", "PROJECTS_TITLE"]

/-- `c₁` exposes every setting of `c₂` with the same value. -/
def extendsConf (c₁ c₂ : ConfSrc) : Prop :=
  ∀ k, (lookupConf c₂ k).isSome = true → lookupConf c₁ k = lookupConf c₂ k

/-- Projects a looked-up value to its string payload, for separating
unequal string settings. -/
def strOfOpt : Option PyVal → String
  | some (PyVal.str s) => s
  | _ => ""

/-- The looked-up value is the empty string. -/
def isEmptyStrVal : Option PyVal → Bool
  | some (PyVal.str s) => s.isEmpty
  | _ => false

/-- The LINKS sequence as declared (both variants declare the same
blogroll). -/
def linksDecl : List (String × String) := [
  ("Optimization Book", "https://convex.indigits.com"),
  ("CR-Sparse", "https://github.com/carnotresearch/cr-sparse"),
  ("Interra", "https://interrasystems.com"),
  ("JAX", "https://github.com/google/jax")]

/-- The SOCIAL sequence as declared in the minimal variant. -/
def socialDecl : List (String × String) := [
  ("twitter", "http://twitter.com/shailesh1729"),
  ("github", "http://github.com/shailesh1729"),
  ("linkedin", "https://www.linkedin.com/in/shaileshkumar1729"),
  ("facebook", "https://www.facebook.com/shailesh.kumar.9484"),
  ("medium", "https://shaileshk.medium.com")]

/-- The SOCIAL sequence as declared in the fuller variant. -/
def socialDeclOld : List (String × String) := [
  ("twitter", "http://twitter.com/shailesh1729"),
  ("github", "http://github.com/shailesh1729"),
  ("linkedin", "https://www.linkedin.com/in/shaileshkumar1729"),
  ("facebook", "https://www.facebook.com/shailesh.kumar.9484"),
  ("youtube", "https://www.youtube.com/channel/UC_cwiJQwHSDlDl-IGnu-0fw"),
  ("medium", "https://shaileshk.medium.com")]

/-- Claim C1: for every recognized key of section 6 present in either
configuration variant, the loaded value's type matches the documented
type (strings for the identity settings, pair sequences for LINKS and
SOCIAL, boolean-or-integer for DEFAULT_PAGINATION, string sequence for
DIRECT_TEMPLATES, nested mapping for SITEMAP, record sequence for
PROJECTS and string for PROJECTS_TITLE). -/
theorem c1_recognized_value_types :
    typeCheck pelicanconf = true ∧ typeCheck old_pelicanconf = true :=
  ⟨rfl, rfl⟩

/-- Claim C2: the loaded LINKS and SOCIAL sequences of both variants
equal the declared tuples element by element in declaration order, and
loading the source `LINKS = (("A", "urlA"), ("B", "urlB"))` exposes
exactly that sequence in that order. -/
theorem c2_links_social_order :
    lookupConf pelicanconf "LINKS" = some (PyVal.pairs linksDecl) ∧
    lookupConf pelicanconf "SOCIAL" = some (PyVal.pairs socialDecl) ∧
    lookupConf old_pelicanconf "LINKS" = some (PyVal.pairs linksDecl) ∧
    lookupConf old_pelicanconf "SOCIAL" = some (PyVal.pairs socialDeclOld) ∧
    lookupConf [("LINKS", PyVal.pairs [("A", "urlA"), ("B", "urlB")])] "LINKS"
      = some (PyVal.pairs [("A", "urlA"), ("B", "urlB")]) :=
  ⟨rfl, rfl, rfl, rfl, rfl⟩

/-- Claim C3: an absent feed setting is in the disabled state, and in
both variants all five declared feed settings (declared with the `None`
marker) are in the disabled state. -/
theorem c3_feeds_disabled :
    (∀ (src : ConfSrc) (k : String),
       lookupConf src k = Option.none → feedDisabled src k = true) ∧
    feedKeys.all (feedDisabled pelicanconf) = true ∧
    feedKeys.all (feedDisabled old_pelicanconf) = true := by
  refine ⟨?_, rfl, rfl⟩
  intro src k h
  simp [feedDisabled, h]

theorem c3_feeds_disabled_witness :
    lookupConf pelicanconf "RELATIVE_URLS" = Option.none ∧
    feedDisabled pelicanconf "RELATIVE_URLS" = true :=
  ⟨rfl, c3_feeds_disabled.1 pelicanconf "RELATIVE_URLS" rfl⟩

/-- Claim C4: the loaded configuration exposes the site title
"In Digits" and pagination disabled, in both variants (both declare
`SITENAME = 'In Digits'` and `DEFAULT_PAGINATION = False`). -/
theorem c4_sitename_pagination :
    sitename pelicanconf = some "In Digits" ∧
    paginationEnabled pelicanconf = false ∧
    sitename old_pelicanconf = some "In Digits" ∧
    paginationEnabled old_pelicanconf = false :=
  ⟨rfl, rfl, rfl, rfl⟩

/-- Claim C5: exactly two configuration variants exist; the fuller one
defines THEME, the theme label strings and PROJECTS/PROJECTS_TITLE,
while the minimal one defines none of those keys. -/
theorem c5_two_variants :
    variants.length = 2 ∧
    themeAndProjectKeys.all
      (fun k => (lookupConf old_pelicanconf k).isSome) = true ∧
    themeAndProjectKeys.all
      (fun k => (lookupConf pelicanconf k).isNone) = true :=
  ⟨rfl, rfl, rfl⟩

/-- Claim C6: loading is idempotent (re-executing the same source on top
of its own result changes nothing) and side-effect free (a load leaves
every binding outside the assigned keys untouched). -/
theorem c6_load_idempotent_pure :
    (∀ (env : Env) (src : ConfSrc), load (load env src) src = load env src) ∧
    (∀ (env : Env) (src : ConfSrc) (k : String),
       k ∉ src.map Prod.fst → load env src k = env k) := by
  constructor
  · intro env src
    funext q
    rw [load_apply, load_apply]
    cases lookupLast src q <;> rfl
  · intro env src k h
    rw [load_apply, lookupLast_eq_none src k h]

theorem c6_load_idempotent_pure_witness :
    load (load emptyEnv pelicanconf) pelicanconf = load emptyEnv pelicanconf ∧
    "RELATIVE_URLS" ∉ pelicanconf.map Prod.fst ∧
    load emptyEnv pelicanconf "RELATIVE_URLS" = emptyEnv "RELATIVE_URLS" :=
  ⟨c6_load_idempotent_pure.1 emptyEnv pelicanconf,
   by decide,
   c6_load_idempotent_pure.2 emptyEnv pelicanconf "RELATIVE_URLS" (by decide)⟩

/-- Claim C7: a configuration source holding a malformed value for a
recognized key fails at load time with an error naming an offending key,
and this is the only failure mode: the validating loader succeeds
exactly when no recognized key holds a malformed value. -/
theorem c7_loader_failure (src : ConfSrc) :
    ((∃ kv, kv ∈ src ∧ recognizedBad kv = true) →
       ∃ k v, loadChecked src = Except.error k ∧
         (k, v) ∈ src ∧ recognizedBad (k, v) = true) ∧
    ((∀ kv, kv ∈ src → recognizedBad kv = false) ↔
       ∃ env, loadChecked src = Except.ok env) := by
  constructor
  · rintro ⟨kv, hmem, hbad⟩
    cases hfind : List.find? recognizedBad src with
    | none =>
      have hnone := List.find?_eq_none.mp hfind kv hmem
      rw [hbad] at hnone
      exact absurd rfl hnone
    | some kv' =>
      refine ⟨kv'.1, kv'.2, ?_, ?_, ?_⟩
      · simp only [loadChecked]
        rw [hfind]
      · exact List.mem_of_find?_eq_some hfind
      · exact List.find?_some hfind
  · constructor
    · intro hall
      have hnone : List.find? recognizedBad src = Option.none :=
        List.find?_eq_none.mpr fun x hx => by
          rw [hall x hx]; exact Bool.false_ne_true
      refine ⟨load emptyEnv src, ?_⟩
      simp only [loadChecked]
      rw [hnone]
    · rintro ⟨env, henv⟩ kv hmem
      cases hfind : List.find? recognizedBad src with
      | none =>
        have hnb := List.find?_eq_none.mp hfind kv hmem
        cases hb : recognizedBad kv with
        | false => rfl
        | true => exact absurd hb hnb
      | some kv' =>
        simp only [loadChecked, hfind] at henv
        exact Except.noConfusion henv

theorem c7_loader_failure_witness :
    ∃ k v, loadChecked [("LINKS", PyVal.str "oops")] = Except.error k ∧
      (k, v) ∈ ([("LINKS", PyVal.str "oops")] : ConfSrc) ∧
      recognizedBad (k, v) = true :=
  (c7_loader_failure [("LINKS", PyVal.str "oops")]).1
    ⟨("LINKS", PyVal.str "oops"), List.Mem.head _, by decide⟩

/-- Claim C8: both variants declare SITEURL as the empty string, so the
base URL for generated links is empty and every generated link equals
its site-root-relative path. -/
theorem c8_siteurl_empty :
    lookupConf pelicanconf "SITEURL" = some (PyVal.str "") ∧
    lookupConf old_pelicanconf "SITEURL" = some (PyVal.str "") ∧
    (∀ path, generatedLink pelicanconf path = path) ∧
    (∀ path, generatedLink old_pelicanconf path = path) :=
  ⟨rfl, rfl, fun _ => rfl, fun _ => rfl⟩

/-- Claim C9: the variants disagree on keys both define, so neither is a
pure extension of the other: DEFAULT_LANG is "English" in the minimal
variant but "en" in the fuller one, and the fuller SOCIAL sequence is
the minimal one with an extra youtube entry inserted between facebook
and medium. -/
theorem c9_variants_disagree :
    lookupConf pelicanconf "DEFAULT_LANG" = some (PyVal.str "English") ∧
    lookupConf old_pelicanconf "DEFAULT_LANG" = some (PyVal.str "en") ∧
    lookupConf pelicanconf "SOCIAL" = some (PyVal.pairs socialDecl) ∧
    lookupConf old_pelicanconf "SOCIAL" = some (PyVal.pairs socialDeclOld) ∧
    socialDeclOld = socialDecl.take 4 ++
      [("youtube", "https://www.youtube.com/channel/UC_cwiJQwHSDlDl-IGnu-0fw")] ++
      socialDecl.drop 4 ∧
    ¬ extendsConf pelicanconf old_pelicanconf ∧
    ¬ extendsConf old_pelicanconf pelicanconf := by
  refine ⟨rfl, rfl, rfl, rfl, by decide, ?_, ?_⟩
  · intro h
    have h2 := congrArg strOfOpt (h "DEFAULT_LANG" rfl)
    exact absurd h2 (by decide)
  · intro h
    have h2 := congrArg strOfOpt (h "DEFAULT_LANG" rfl)
    exact absurd h2 (by decide)

/-- Claim C10: in the fuller variant the TAG_SAVE_AS, AUTHOR_SAVE_AS and
CATEGORY_SAVE_AS templates are the empty string (suppressing the
individual output pages) while the TAGS_URL, CATEGORIES_URL and
ARCHIVES_URL listing URLs are non-empty. -/
theorem c10_save_as_suppressed :
    lookupConf old_pelicanconf "TAG_SAVE_AS" = some (PyVal.str "") ∧
    lookupConf old_pelicanconf "AUTHOR_SAVE_AS" = some (PyVal.str "") ∧
    lookupConf old_pelicanconf "CATEGORY_SAVE_AS" = some (PyVal.str "") ∧
    lookupConf old_pelicanconf "TAGS_URL" = some (PyVal.str "tags") ∧
    lookupConf old_pelicanconf "CATEGORIES_URL" = some (PyVal.str "categories") ∧
    lookupConf old_pelicanconf "ARCHIVES_URL" = some (PyVal.str "archives") ∧
    isEmptyStrVal (lookupConf old_pelicanconf "TAG_SAVE_AS") = true ∧
    isEmptyStrVal (lookupConf old_pelicanconf "AUTHOR_SAVE_AS") = true ∧
    isEmptyStrVal (lookupConf old_pelicanconf "CATEGORY_SAVE_AS") = true ∧
    isEmptyStrVal (lookupConf old_pelicanconf "TAGS_URL") = false ∧
    isEmptyStrVal (lookupConf old_pelicanconf "CATEGORIES_URL") = false ∧
    isEmptyStrVal (lookupConf old_pelicanconf "ARCHIVES_URL") = false :=
  ⟨rfl, rfl, rfl, rfl, rfl, rfl, rfl, rfl, rfl, rfl, rfl, rfl⟩
